import Mathlib

/-!
Verification development for the wireless scan-parsing and network-state
inference engine (`scanner.rs`, `network.rs`).

The Rust source is shallowly embedded: each Rust function the claims touch
is translated into an executable Lean definition operating on `String` /
`List Char` / `Nat` / `Int`.  Machine integers (`u32`, `i32`, `u8`) are
modelled as `Nat` / `Int` with explicit range checks or `% 256` where the
source can overflow or truncate.  The `last_seen : DateTime<Utc>` field of
`WifiNetwork` (wall-clock time, set once at finalization) is omitted from
the record; no claim mentions it.
-/

/-- Model of Rust `str::trim`: drop whitespace from both ends.  Defined
over the character list so that it evaluates by kernel reduction. -/
def sTrim (s : String) : String :=
  String.mk (((s.toList.dropWhile Char.isWhitespace).reverse.dropWhile
    Char.isWhitespace).reverse)

/-- Model of Rust `str::starts_with(p)`. -/
def sStartsWith (s p : String) : Bool :=
  p.toList.isPrefixOf s.toList

/-- Model of Rust `str::ends_with(p)`. -/
def sEndsWith (s p : String) : Bool :=
  p.toList.isSuffixOf s.toList

/-- Drop the last `n` characters (used to model `lines()`). -/
def sDropRight (s : String) (n : Nat) : String :=
  String.mk (s.toList.take (s.toList.length - n))

/-- Model of Rust `str::strip_prefix`: `some` remainder when `p` is a
prefix of `s`, else `none`.  (All prefixes used by the program are ASCII,
so dropping `p`'s characters matches dropping `p`'s bytes.) -/
def stripPre (s p : String) : Option String :=
  if sStartsWith s p then some (String.mk (s.toList.drop p.toList.length))
  else none

/-- Worker for substring splitting.  The fuel argument only serves to make
the recursion structural; called with fuel above the haystack length and a
nonempty separator it never runs out. -/
def splitOnAux (sep : List Char) : Nat → List Char → List Char → List (List Char)
  | 0, hay, acc => [acc.reverse ++ hay]
  | _ + 1, [], acc => [acc.reverse]
  | f + 1, c :: cs, acc =>
      if sep.isPrefixOf (c :: cs) then
        acc.reverse :: splitOnAux sep f ((c :: cs).drop sep.length) []
      else
        splitOnAux sep f cs (c :: acc)

/-- Model of Rust `str::split(sep)` for a nonempty separator string (the
program only splits on `"channel"` and on `"\n"`): the pieces between
consecutive non-overlapping occurrences of `sep`. -/
def sSplitOn (s sep : String) : List String :=
  if sep = "" then [s]
  else (splitOnAux sep.toList (s.toList.length + 1) s.toList []).map String.mk

/-- Model of Rust `str::contains(pat)`: substring occurrence. -/
def containsStr (s pat : String) : Bool :=
  decide (pat.toList <:+: s.toList)

/-- Model of Rust `str::split_whitespace().next()`: the first maximal run
of non-whitespace characters, `none` when the string is all whitespace. -/
def firstToken (s : String) : Option String :=
  let cs := s.toList.dropWhile (fun c => c.isWhitespace)
  if cs.isEmpty then none
  else some (String.mk (cs.takeWhile (fun c => !c.isWhitespace)))

/-- Model of Rust `str::lines()`: split on `'\n'`, no trailing empty line
for a trailing newline, and a trailing `'\r'` is stripped from each line. -/
def rustLines (s : String) : List String :=
  if s = "" then []
  else
    let s := if sEndsWith s "\n" then sDropRight s 1 else s
    (sSplitOn s "\n").map (fun l => if sEndsWith l "\r" then sDropRight l 1 else l)

/-- Digit value of an ASCII decimal digit. -/
def digitVal (c : Char) : Option Nat :=
  if '0' ≤ c ∧ c ≤ '9' then some (c.toNat - 48) else none

/-- Decimal value of a nonempty all-digit character list, else `none`. -/
def parseDigits (cs : List Char) : Option Nat :=
  if cs.isEmpty then none
  else
    cs.foldl
      (fun acc c =>
        match acc, digitVal c with
        | some a, some d => some (a * 10 + d)
        | _, _ => none)
      (some 0)

/-- Model of Rust `str::parse::<u32>()`: optional `'+'` sign, then a
nonempty digit string, value within `u32` range; anything else is `Err`. -/
def parseU32 (s : String) : Option Nat :=
  let cs := match s.toList with
    | '+' :: rest => rest
    | cs => cs
  (parseDigits cs).bind (fun v => if v ≤ 4294967295 then some v else none)

/-- Model of Rust `str::parse::<i32>()`: optional sign, then a nonempty
digit string, value within `i32` range; anything else is `Err`. -/
def parseI32 (s : String) : Option Int :=
  match s.toList with
  | '-' :: rest =>
      (parseDigits rest).bind
        (fun v => if v ≤ 2147483648 then some (-(v : Int)) else none)
  | '+' :: rest =>
      (parseDigits rest).bind
        (fun v => if v ≤ 2147483647 then some ((v : Int)) else none)
  | cs =>
      (parseDigits cs).bind
        (fun v => if v ≤ 2147483647 then some ((v : Int)) else none)

/-- `SecurityType` from `scanner.rs`. -/
inductive SecurityType where
  | Open
  | WEP
  | WPA
  | WPA2
  | WPA3
  | WPA2Enterprise
  | Unknown
deriving DecidableEq, Repr

/-- `WifiNetwork` from `scanner.rs` (minus the wall-clock `last_seen`). -/
structure WifiNetwork where
  ssid : String
  bssid : String
  channel : Nat
  frequency : Nat
  signal_strength : Int
  security : SecurityType
  mode : String
deriving DecidableEq, Repr

/-- `WifiNetworkBuilder` from `scanner.rs`. -/
structure WifiNetworkBuilder where
  bssid : String
  ssid : Option String
  channel : Option Nat
  frequency : Option Nat
  signal_strength : Option Int
  security : SecurityType
deriving DecidableEq, Repr

/-- `WifiNetworkBuilder::new`. -/
def WifiNetworkBuilder.new (bssid : String) : WifiNetworkBuilder :=
  { bssid := bssid
    ssid := none
    channel := none
    frequency := none
    signal_strength := none
    security := SecurityType.Open }

/-- `WifiNetworkBuilder::update_security` (the `self.security` update as a
function of the old value and the line). -/
def update_security (sec : SecurityType) (line : String) : SecurityType :=
  if containsStr line "WPA3" then SecurityType.WPA3
  else if containsStr line "RSN" || containsStr line "WPA2" then
    if containsStr line "802.1X" || containsStr line "EAP" then
      SecurityType.WPA2Enterprise
    else if sec ≠ SecurityType.WPA3 then SecurityType.WPA2
    else sec
  else if containsStr line "WPA" && sec = SecurityType.Open then
    SecurityType.WPA
  else if containsStr line "WEP" && sec = SecurityType.Open then
    SecurityType.WEP
  else sec

/-- A line is free of the Enterprise override: if it would reach the
`RSN`/`WPA2` branch of `update_security` (no `WPA3` in it), it carries no
`802.1X`/`EAP` marker. -/
def noEnterpriseOverride (l : String) : Prop :=
  containsStr (sTrim l) "WPA3" = false →
    (containsStr (sTrim l) "RSN" = true ∨ containsStr (sTrim l) "WPA2" = true) →
    containsStr (sTrim l) "802.1X" = false ∧ containsStr (sTrim l) "EAP" = false

instance (l : String) : Decidable (noEnterpriseOverride l) := by
  unfold noEnterpriseOverride
  infer_instance

/-- `WifiScanner::freq_to_channel`. -/
def freq_to_channel (freq : Nat) : Option Nat :=
  match freq with
  | 2412 => some 1
  | 2417 => some 2
  | 2422 => some 3
  | 2427 => some 4
  | 2432 => some 5
  | 2437 => some 6
  | 2442 => some 7
  | 2447 => some 8
  | 2452 => some 9
  | 2457 => some 10
  | 2462 => some 11
  | 2467 => some 12
  | 2472 => some 13
  | 2484 => some 14
  | 5180 => some 36
  | 5200 => some 40
  | 5220 => some 44
  | 5240 => some 48
  | 5260 => some 52
  | 5280 => some 56
  | 5300 => some 60
  | 5320 => some 64
  | 5500 => some 100
  | 5520 => some 104
  | 5540 => some 108
  | 5560 => some 112
  | 5580 => some 116
  | 5600 => some 120
  | 5620 => some 124
  | 5640 => some 128
  | 5660 => some 132
  | 5680 => some 136
  | 5700 => some 140
  | 5720 => some 144
  | 5745 => some 149
  | 5765 => some 153
  | 5785 => some 157
  | 5805 => some 161
  | 5825 => some 165
  | _ => none

/-- The per-line builder update inside `parse_scan_results`' loop: the
branch taken for a line (already known not to start a new `BSS ` block)
while a builder is active.  The source trims each raw line once at the
top of the loop; trimming here again is idempotent and so equivalent. -/
def applyLine (b : WifiNetworkBuilder) (rawLine : String) : WifiNetworkBuilder :=
  let line := sTrim rawLine
  if sStartsWith line "SSID:" then
    { b with ssid := (stripPre line "SSID:").map sTrim }
  else if sStartsWith line "freq:" then
    match stripPre line "freq:" with
    | some freqStr =>
        let freq := parseU32 (sTrim freqStr)
        { b with frequency := freq, channel := freq_to_channel (freq.getD 0) }
    | none => b
  else if sStartsWith line "signal:" then
    match stripPre line "signal:" with
    | some signalStr =>
        let tok := (firstToken (sTrim signalStr)).getD "0"
        { b with signal_strength := parseI32 tok }
    | none => b
  else if containsStr line "WPA" || containsStr line "RSN" || containsStr line "WEP" then
    { b with security := update_security b.security line }
  else if sStartsWith line "DS Parameter set:" then
    match (sSplitOn line "channel").get? 1 with
    | some chStr => { b with channel := parseU32 (sTrim chStr) }
    | none => b
  else b

/-- The record a builder finalizes to (`WifiNetworkBuilder::build` always
produces `Some`; this is that record). -/
def buildRecord (b : WifiNetworkBuilder) : WifiNetwork :=
  { ssid := b.ssid.getD "<hidden>"
    bssid := b.bssid
    channel := b.channel.getD 0
    frequency := b.frequency.getD 0
    signal_strength := b.signal_strength.getD (-100)
    security := b.security
    mode := "Infrastructure" }

/-- `WifiNetworkBuilder::build`. -/
def WifiNetworkBuilder.build (b : WifiNetworkBuilder) : Option WifiNetwork :=
  some (buildRecord b)

/-- BSSID extraction from a (trimmed) `BSS ` header line: text between the
marker and the first `'('`, trimmed; empty string when the chain fails. -/
def extractBssid (line : String) : String :=
  (((stripPre line "BSS ").bind
      (fun s => some (String.mk (s.toList.takeWhile (fun c => c ≠ '('))))).map
    sTrim).getD ""

/-- Mutable state of `parse_scan_results`: the output vector, the session
cache `self.networks`, and the in-progress builder. -/
structure ScanState where
  networks : List WifiNetwork
  cache : List (String × WifiNetwork)
  current : Option WifiNetworkBuilder
deriving Repr

/-- `HashMap::insert` on the session cache, modelled as an association
list: replace the value at an existing key, else append the new pair. -/
def insertCache (m : List (String × WifiNetwork)) (k : String) (v : WifiNetwork) :
    List (String × WifiNetwork) :=
  if m.any (fun p => p.1 = k) then
    m.map (fun p => if p.1 = k then (k, v) else p)
  else m ++ [(k, v)]

/-- Finalize a builder and record it: cache insert plus push, as in both
flush sites of `parse_scan_results`. -/
def pushNetwork (st : ScanState) (b : WifiNetworkBuilder) : ScanState :=
  match b.build with
  | some n =>
      { st with
        networks := st.networks ++ [n]
        cache := insertCache st.cache n.bssid n }
  | none => st

/-- One iteration of the `parse_scan_results` line loop. -/
def processLine (st : ScanState) (rawLine : String) : ScanState :=
  let line := sTrim rawLine
  if sStartsWith line "BSS " then
    let st :=
      match st.current with
      | some b => pushNetwork st b
      | none => st
    { st with current := some (WifiNetworkBuilder.new (extractBssid line)) }
  else
    match st.current with
    | some b => { st with current := some (applyLine b rawLine) }
    | none => st

/-- Stable descending insertion by `signal_strength`: `x` goes before the
first element whose signal is not above `x`'s. -/
def insortD (x : WifiNetwork) : List WifiNetwork → List WifiNetwork
  | [] => [x]
  | y :: ys =>
      if y.signal_strength ≤ x.signal_strength then x :: y :: ys
      else y :: insortD x ys

/-- Model of `Vec::sort_by(|a, b| b.signal_strength.cmp(&a.signal_strength))`:
a stable sort, descending by `signal_strength`.  Stability plus descending
order determine the result uniquely, so this insertion sort computes
exactly what the source's stable sort does. -/
def sortD : List WifiNetwork → List WifiNetwork
  | [] => []
  | x :: xs => insortD x (sortD xs)

/-- The post-loop flush of `parse_scan_results` (the "don't forget the
last network" step). -/
def flushState (st : ScanState) : ScanState :=
  match st.current with
  | some b => pushNetwork st b
  | none => st

/-- `parse_scan_results` state after consuming all lines and flushing the
trailing builder. -/
def parseState (lines : List String) : ScanState :=
  flushState (lines.foldl processLine ⟨[], [], none⟩)

/-- The record sequence `parse_scan_results` returns for a list of lines:
flushed records in encounter order, then the stable descending sort. -/
def parseLines (lines : List String) : List WifiNetwork :=
  sortD (parseState lines).networks

/-- `WifiScanner::parse_scan_results` on the raw scan text. -/
def parse_scan_results (output : String) : List WifiNetwork :=
  parseLines (rustLines output)

/-- BSSIDs of the `BSS ` header lines of a scan text, in encounter order. -/
def blockBssids (output : String) : List String :=
  ((rustLines output).map sTrim).filterMap
    (fun l => if sStartsWith l "BSS " then some (extractBssid l) else none)

/-- `signal_to_quality` from `scanner.rs`; the `as u8` cast is the low
eight bits of the two's-complement value, i.e. `% 256`. -/
def signal_to_quality (signal_dbm : Int) : Nat :=
  if signal_dbm ≥ -50 then 100
  else if signal_dbm ≤ -100 then 0
  else ((2 * (signal_dbm + 100)) % 256).toNat

/-- `WirelessMode` from `network.rs`. -/
inductive WirelessMode where
  | Managed
  | Monitor
  | Master
  | Adhoc
  | Unknown
deriving DecidableEq, Repr

/-- The line loop of `NetworkManager::get_wireless_mode`: scan lines in
order; on a line containing `type`, return the first keyword class that
matches, else keep scanning; `Unknown` after the last line. -/
def wirelessModeLoop : List String → WirelessMode
  | [] => WirelessMode.Unknown
  | l :: ls =>
      if containsStr l "type" then
        if containsStr l "monitor" then WirelessMode.Monitor
        else if containsStr l "managed" then WirelessMode.Managed
        else if containsStr l "AP" || containsStr l "master" then WirelessMode.Master
        else if containsStr l "IBSS" || containsStr l "ad-hoc" then WirelessMode.Adhoc
        else wirelessModeLoop ls
      else wirelessModeLoop ls

/-- `NetworkManager::get_wireless_mode` as a function of the `iw dev info`
stdout text. -/
def get_wireless_mode (blob : String) : WirelessMode :=
  wirelessModeLoop (rustLines blob)

/-- Lowercase hex digit of a value below 16, as `{:x}` renders it. -/
def hexDigit (n : Nat) : Char :=
  Char.ofNat (if n < 10 then 48 + n else 87 + n)

/-- `{:02x}` rendering of a byte: exactly two lowercase hex digits. -/
def hexPair (b : Nat) : String :=
  String.mk [hexDigit (b / 16), hexDigit (b % 16)]

/-- `NetworkManager::generate_random_mac`, with the six `rng.gen::<u8>()`
outcomes supplied as arguments (reduced to bytes by `% 256`): the first
byte is masked with `& 0xFC` then `| 0x02`, and the six bytes are rendered
`{:02x}`-separated by colons. -/
def generate_random_mac (r0 r1 r2 r3 r4 r5 : Nat) : String :=
  let first_byte := ((r0 % 256) &&& 0xFC) ||| 0x02
  hexPair first_byte ++ ":" ++ hexPair (r1 % 256) ++ ":" ++ hexPair (r2 % 256) ++
    ":" ++ hexPair (r3 % 256) ++ ":" ++ hexPair (r4 % 256) ++ ":" ++ hexPair (r5 % 256)

/-- BSSIDs of the `BSS ` header lines of a line list, in encounter order
(the line-list form of `blockBssids`). -/
def headerBssids (lines : List String) : List String :=
  lines.filterMap
    (fun l => if sStartsWith (sTrim l) "BSS " then some (extractBssid (sTrim l)) else none)

/-- The security strength order as the claim states it:
`Open < WEP < WPA < WPA2 < WPA2Enterprise < WPA3` (with `Unknown`, never
produced by the builder, at the bottom). -/
def claimStrength : SecurityType → Nat
  | SecurityType.Open => 0
  | SecurityType.WEP => 1
  | SecurityType.WPA => 2
  | SecurityType.WPA2 => 3
  | SecurityType.WPA2Enterprise => 4
  | SecurityType.WPA3 => 5
  | SecurityType.Unknown => 0

/-- The coarser strength order that `update_security` actually respects:
`Open < WEP < WPA < {WPA2, WPA2Enterprise, WPA3}`. -/
def securityRank : SecurityType → Nat
  | SecurityType.Open => 0
  | SecurityType.WEP => 1
  | SecurityType.WPA => 2
  | SecurityType.WPA2 => 3
  | SecurityType.WPA2Enterprise => 3
  | SecurityType.WPA3 => 3
  | SecurityType.Unknown => 0

/-- Lowercase hex digit character: `0`-`9` or `a`-`f`. -/
def isLowerHex (c : Char) : Bool :=
  (48 ≤ c.toNat && c.toNat ≤ 57) || (97 ≤ c.toNat && c.toNat ≤ 102)

/-- A line `get_wireless_mode`'s loop stops at: it contains `type` and at
least one mode keyword. -/
def modeKeywordLine (l : String) : Bool :=
  containsStr l "type" &&
    (containsStr l "monitor" || containsStr l "managed" || containsStr l "AP" ||
      containsStr l "master" || containsStr l "IBSS" || containsStr l "ad-hoc")

/-- The mode the loop body returns for a line it stops at (per-line
keyword precedence). -/
def wirelessModeOfLine (l : String) : WirelessMode :=
  if containsStr l "monitor" then WirelessMode.Monitor
  else if containsStr l "managed" then WirelessMode.Managed
  else if containsStr l "AP" || containsStr l "master" then WirelessMode.Master
  else WirelessMode.Adhoc

/-- The record one `BSS ` block (header line plus its following lines)
finalizes to. -/
def blockRecord (header : String) (lines : List String) : WifiNetwork :=
  buildRecord (List.foldl applyLine (WifiNetworkBuilder.new (extractBssid (sTrim header))) lines)

/-- The BSSIDs held by a scan state: finished records in order, then the
in-progress builder's, if any. -/
def stBssids (st : ScanState) : List String :=
  st.networks.map (fun r => r.bssid) ++
    (match st.current with
     | some b => [b.bssid]
     | none => [])

lemma containsStr_mono {s : String} {p q : String}
    (hpq : p.toList <:+: q.toList) (h : containsStr s q = true) :
    containsStr s p = true := by
  simp only [containsStr, decide_eq_true_eq] at h ⊢
  obtain ⟨u, v, huv⟩ := hpq
  obtain ⟨x, y, hxy⟩ := h
  refine ⟨x ++ u, v ++ y, ?_⟩
  rw [← hxy, ← huv]
  simp [List.append_assoc]

lemma containsStr_WPA_of_WPA3 {s : String} (h : containsStr s "WPA3" = true) :
    containsStr s "WPA" = true :=
  containsStr_mono (by decide) h

lemma sStartsWith_ne_first {s p q : String} {cp cq : Char} {tp tq : List Char}
    (hp : p.toList = cp :: tp) (hq : q.toList = cq :: tq) (hne : cp ≠ cq)
    (h : sStartsWith s p = true) : sStartsWith s q = false := by
  simp only [sStartsWith, hp] at h
  simp only [sStartsWith, hq]
  rw [Bool.eq_false_iff]
  intro hq'
  have h1 : cp :: tp <+: s.toList := by simpa using h
  have h2 : cq :: tq <+: s.toList := by simpa using hq'
  obtain ⟨t1, ht1⟩ := h1
  obtain ⟨t2, ht2⟩ := h2
  rw [← ht2] at ht1
  simp only [List.cons_append, List.cons.injEq] at ht1
  exact hne ht1.1

lemma sW_SSID_of_signal {s : String} (h : sStartsWith s "signal:" = true) :
    sStartsWith s "SSID:" = false :=
  @sStartsWith_ne_first s "signal:" "SSID:" 's' 'S' "ignal:".toList "SID:".toList
    (by decide) (by decide) (by decide) h

lemma sW_freq_of_signal {s : String} (h : sStartsWith s "signal:" = true) :
    sStartsWith s "freq:" = false :=
  @sStartsWith_ne_first s "signal:" "freq:" 's' 'f' "ignal:".toList "req:".toList
    (by decide) (by decide) (by decide) h

lemma sW_SSID_of_freq {s : String} (h : sStartsWith s "freq:" = true) :
    sStartsWith s "SSID:" = false :=
  @sStartsWith_ne_first s "freq:" "SSID:" 'f' 'S' "req:".toList "SID:".toList
    (by decide) (by decide) (by decide) h

lemma sW_SSID_of_ds {s : String} (h : sStartsWith s "DS Parameter set:" = true) :
    sStartsWith s "SSID:" = false :=
  @sStartsWith_ne_first s "DS Parameter set:" "SSID:" 'D' 'S'
    "S Parameter set:".toList "SID:".toList (by decide) (by decide) (by decide) h

lemma sW_freq_of_ds {s : String} (h : sStartsWith s "DS Parameter set:" = true) :
    sStartsWith s "freq:" = false :=
  @sStartsWith_ne_first s "DS Parameter set:" "freq:" 'D' 'f'
    "S Parameter set:".toList "req:".toList (by decide) (by decide) (by decide) h

lemma sW_signal_of_ds {s : String} (h : sStartsWith s "DS Parameter set:" = true) :
    sStartsWith s "signal:" = false :=
  @sStartsWith_ne_first s "DS Parameter set:" "signal:" 'D' 's'
    "S Parameter set:".toList "ignal:".toList (by decide) (by decide) (by decide) h

lemma applyLine_bssid (b : WifiNetworkBuilder) (l : String) :
    (applyLine b l).bssid = b.bssid := by
  dsimp only [applyLine]
  repeat' split
  all_goals rfl

lemma applyLine_ssid (b : WifiNetworkBuilder) (l : String)
    (h : sStartsWith (sTrim l) "SSID:" = false) :
    (applyLine b l).ssid = b.ssid := by
  dsimp only [applyLine]
  simp only [h, Bool.false_eq_true, if_false]
  repeat' split
  all_goals rfl

lemma applyLine_frequency (b : WifiNetworkBuilder) (l : String)
    (h : sStartsWith (sTrim l) "freq:" = false) :
    (applyLine b l).frequency = b.frequency := by
  dsimp only [applyLine]
  simp only [h, Bool.false_eq_true, if_false]
  repeat' split
  all_goals rfl

lemma applyLine_channel (b : WifiNetworkBuilder) (l : String)
    (hf : sStartsWith (sTrim l) "freq:" = false)
    (hd : sStartsWith (sTrim l) "DS Parameter set:" = false) :
    (applyLine b l).channel = b.channel := by
  dsimp only [applyLine]
  simp only [hf, hd, Bool.false_eq_true, if_false]
  repeat' split
  all_goals rfl

lemma applyLine_signal (b : WifiNetworkBuilder) (l : String)
    (h : sStartsWith (sTrim l) "signal:" = false) :
    (applyLine b l).signal_strength = b.signal_strength := by
  dsimp only [applyLine]
  simp only [h, Bool.false_eq_true, if_false]
  repeat' split
  all_goals rfl

lemma applyLine_security (b : WifiNetworkBuilder) (l : String)
    (h1 : containsStr (sTrim l) "WPA" = false) (h2 : containsStr (sTrim l) "RSN" = false)
    (h3 : containsStr (sTrim l) "WEP" = false) :
    (applyLine b l).security = b.security := by
  dsimp only [applyLine]
  simp only [h1, h2, h3, Bool.or_self, Bool.false_eq_true, if_false]
  repeat' split
  all_goals rfl

lemma foldl_applyLine_bssid (b : WifiNetworkBuilder) (lines : List String) :
    (List.foldl applyLine b lines).bssid = b.bssid := by
  induction lines generalizing b with
  | nil => rfl
  | cons l ls ih => rw [List.foldl_cons, ih, applyLine_bssid]

lemma foldl_applyLine_ssid (b : WifiNetworkBuilder) (lines : List String)
    (h : ∀ l ∈ lines, sStartsWith (sTrim l) "SSID:" = false) :
    (List.foldl applyLine b lines).ssid = b.ssid := by
  induction lines generalizing b with
  | nil => rfl
  | cons l ls ih =>
      rw [List.foldl_cons, ih _ (fun x hx => h x (List.mem_cons_of_mem _ hx)),
        applyLine_ssid b l (h l (List.mem_cons_self _ _))]

lemma foldl_applyLine_frequency (b : WifiNetworkBuilder) (lines : List String)
    (h : ∀ l ∈ lines, sStartsWith (sTrim l) "freq:" = false) :
    (List.foldl applyLine b lines).frequency = b.frequency := by
  induction lines generalizing b with
  | nil => rfl
  | cons l ls ih =>
      rw [List.foldl_cons, ih _ (fun x hx => h x (List.mem_cons_of_mem _ hx)),
        applyLine_frequency b l (h l (List.mem_cons_self _ _))]

lemma foldl_applyLine_channel (b : WifiNetworkBuilder) (lines : List String)
    (h : ∀ l ∈ lines, sStartsWith (sTrim l) "freq:" = false ∧
      sStartsWith (sTrim l) "DS Parameter set:" = false) :
    (List.foldl applyLine b lines).channel = b.channel := by
  induction lines generalizing b with
  | nil => rfl
  | cons l ls ih =>
      rw [List.foldl_cons, ih _ (fun x hx => h x (List.mem_cons_of_mem _ hx)),
        applyLine_channel b l (h l (List.mem_cons_self _ _)).1 (h l (List.mem_cons_self _ _)).2]

lemma foldl_applyLine_signal (b : WifiNetworkBuilder) (lines : List String)
    (h : ∀ l ∈ lines, sStartsWith (sTrim l) "signal:" = false) :
    (List.foldl applyLine b lines).signal_strength = b.signal_strength := by
  induction lines generalizing b with
  | nil => rfl
  | cons l ls ih =>
      rw [List.foldl_cons, ih _ (fun x hx => h x (List.mem_cons_of_mem _ hx)),
        applyLine_signal b l (h l (List.mem_cons_self _ _))]

lemma foldl_applyLine_security (b : WifiNetworkBuilder) (lines : List String)
    (h : ∀ l ∈ lines, containsStr (sTrim l) "WPA" = false ∧
      containsStr (sTrim l) "RSN" = false ∧ containsStr (sTrim l) "WEP" = false) :
    (List.foldl applyLine b lines).security = b.security := by
  induction lines generalizing b with
  | nil => rfl
  | cons l ls ih =>
      rw [List.foldl_cons, ih _ (fun x hx => h x (List.mem_cons_of_mem _ hx)),
        applyLine_security b l (h l (List.mem_cons_self _ _)).1
          (h l (List.mem_cons_self _ _)).2.1 (h l (List.mem_cons_self _ _)).2.2]

lemma update_security_sets_wpa3 (sec : SecurityType) (line : String)
    (h : containsStr line "WPA3" = true) :
    update_security sec line = SecurityType.WPA3 := by
  simp [update_security, h]

lemma update_security_keeps_wpa3 (line : String)
    (hw3 : containsStr line "WPA3" = false)
    (hent : (containsStr line "RSN" = true ∨ containsStr line "WPA2" = true) →
      containsStr line "802.1X" = false ∧ containsStr line "EAP" = false) :
    update_security SecurityType.WPA3 line = SecurityType.WPA3 := by
  unfold update_security
  cases hr : containsStr line "RSN" with
  | true =>
      obtain ⟨he1, he2⟩ := hent (Or.inl hr)
      simp [hw3, hr, he1, he2]
  | false =>
      cases hw2 : containsStr line "WPA2" with
      | true =>
          obtain ⟨he1, he2⟩ := hent (Or.inr hw2)
          simp [hw3, hr, hw2, he1, he2]
      | false => simp [hw3, hr, hw2]

lemma applyLine_keeps_wpa3 (b : WifiNetworkBuilder) (l : String)
    (hb : b.security = SecurityType.WPA3) (hent : noEnterpriseOverride l) :
    (applyLine b l).security = SecurityType.WPA3 := by
  dsimp only [applyLine]
  repeat' split
  all_goals try exact hb
  show update_security b.security (sTrim l) = SecurityType.WPA3
  rw [hb]
  cases hw3 : containsStr (sTrim l) "WPA3" with
  | true => exact update_security_sets_wpa3 _ _ hw3
  | false => exact update_security_keeps_wpa3 _ hw3 (hent hw3)

lemma applyLine_sets_wpa3 (b : WifiNetworkBuilder) (l : String)
    (h1 : sStartsWith (sTrim l) "SSID:" = false)
    (h2 : sStartsWith (sTrim l) "freq:" = false)
    (h3 : sStartsWith (sTrim l) "signal:" = false)
    (h4 : containsStr (sTrim l) "WPA3" = true) :
    (applyLine b l).security = SecurityType.WPA3 := by
  have hw : containsStr (sTrim l) "WPA" = true := containsStr_WPA_of_WPA3 h4
  dsimp only [applyLine]
  simp only [h1, h2, h3, hw, Bool.true_or, Bool.false_eq_true, if_false, if_true]
  exact update_security_sets_wpa3 _ _ h4

lemma foldl_keeps_wpa3 (b : WifiNetworkBuilder) (lines : List String)
    (hb : b.security = SecurityType.WPA3)
    (hent : ∀ l ∈ lines, noEnterpriseOverride l) :
    (List.foldl applyLine b lines).security = SecurityType.WPA3 := by
  induction lines generalizing b with
  | nil => exact hb
  | cons l ls ih =>
      rw [List.foldl_cons]
      exact ih _ (applyLine_keeps_wpa3 b l hb (hent l (List.mem_cons_self _ _)))
        (fun x hx => hent x (List.mem_cons_of_mem _ hx))

lemma foldl_wpa3_of_mem (b : WifiNetworkBuilder) (lines : List String)
    (hw : ∃ l ∈ lines, sStartsWith (sTrim l) "SSID:" = false ∧
      sStartsWith (sTrim l) "freq:" = false ∧
      sStartsWith (sTrim l) "signal:" = false ∧ containsStr (sTrim l) "WPA3" = true)
    (hent : ∀ l ∈ lines, noEnterpriseOverride l) :
    (List.foldl applyLine b lines).security = SecurityType.WPA3 := by
  induction lines generalizing b with
  | nil => simp at hw
  | cons l ls ih =>
      rw [List.foldl_cons]
      obtain ⟨x, hx, hxp⟩ := hw
      rcases List.mem_cons.mp hx with rfl | hx'
      · exact foldl_keeps_wpa3 _ ls
          (applyLine_sets_wpa3 b x hxp.1 hxp.2.1 hxp.2.2.1 hxp.2.2.2)
          (fun y hy => hent y (List.mem_cons_of_mem _ hy))
      · exact ih _ ⟨x, hx', hxp⟩ (fun y hy => hent y (List.mem_cons_of_mem _ hy))

lemma insortD_perm (x : WifiNetwork) (l : List WifiNetwork) :
    List.Perm (insortD x l) (x :: l) := by
  induction l with
  | nil => exact List.Perm.refl _
  | cons y ys ih =>
      unfold insortD
      split
      · exact List.Perm.refl _
      · exact (ih.cons y).trans (List.Perm.swap x y ys)

lemma sortD_perm (l : List WifiNetwork) : List.Perm (sortD l) l := by
  induction l with
  | nil => exact List.Perm.refl _
  | cons x xs ih => exact (insortD_perm x (sortD xs)).trans (ih.cons x)

lemma insortD_pairwise (x : WifiNetwork) (l : List WifiNetwork)
    (h : l.Pairwise (fun a b => b.signal_strength ≤ a.signal_strength)) :
    (insortD x l).Pairwise (fun a b => b.signal_strength ≤ a.signal_strength) := by
  induction l with
  | nil => simp [insortD]
  | cons y ys ih =>
      rw [List.pairwise_cons] at h
      unfold insortD
      split
      · rename_i hc
        rw [List.pairwise_cons]
        refine ⟨fun a ha => ?_, List.pairwise_cons.mpr h⟩
        rcases List.mem_cons.mp ha with rfl | ha'
        · exact hc
        · exact le_trans (h.1 a ha') hc
      · rename_i hc
        rw [List.pairwise_cons]
        refine ⟨fun a ha => ?_, ih h.2⟩
        rcases List.mem_cons.mp ((insortD_perm x ys).mem_iff.mp ha) with rfl | ha'
        · exact le_of_not_le hc
        · exact h.1 a ha'

lemma sortD_pairwise (l : List WifiNetwork) :
    (sortD l).Pairwise (fun a b => b.signal_strength ≤ a.signal_strength) := by
  induction l with
  | nil => simp [sortD]
  | cons x xs ih => exact insortD_pairwise x (sortD xs) ih

lemma insortD_filter (x : WifiNetwork) (l : List WifiNetwork) (s : Int) :
    (insortD x l).filter (fun r => r.signal_strength == s) =
      if x.signal_strength == s then
        x :: l.filter (fun r => r.signal_strength == s)
      else l.filter (fun r => r.signal_strength == s) := by
  induction l with
  | nil => cases hxs : (x.signal_strength == s) <;> simp [insortD, List.filter_cons, hxs]
  | cons y ys ih =>
      unfold insortD
      split
      · simp [List.filter_cons]
      · rename_i hc
        cases hxs : (x.signal_strength == s) with
        | true =>
            have hx : x.signal_strength = s := by simpa using hxs
            have hy : (y.signal_strength == s) = false := by
              have : ¬ y.signal_strength = s := by omega
              simpa using this
            simp [List.filter_cons, hy, ih, hxs]
        | false => simp [List.filter_cons, ih, hxs]

lemma sortD_filter (l : List WifiNetwork) (s : Int) :
    (sortD l).filter (fun r => r.signal_strength == s) =
      l.filter (fun r => r.signal_strength == s) := by
  induction l with
  | nil => rfl
  | cons x xs ih =>
      rw [show sortD (x :: xs) = insortD x (sortD xs) from rfl, insortD_filter]
      cases hxs : (x.signal_strength == s) <;> simp [List.filter_cons, hxs, ih]

lemma foldl_processLine_noBSS (ns : List WifiNetwork) (m : List (String × WifiNetwork))
    (b : WifiNetworkBuilder) (lines : List String)
    (h : ∀ l ∈ lines, sStartsWith (sTrim l) "BSS " = false) :
    List.foldl processLine ⟨ns, m, some b⟩ lines =
      ⟨ns, m, some (List.foldl applyLine b lines)⟩ := by
  induction lines generalizing b with
  | nil => rfl
  | cons l ls ih =>
      have hstep : processLine ⟨ns, m, some b⟩ l = ⟨ns, m, some (applyLine b l)⟩ := by
        dsimp only [processLine]
        simp only [h l (List.mem_cons_self _ _), Bool.false_eq_true, if_false]
      rw [List.foldl_cons, hstep]
      exact ih _ (fun x hx => h x (List.mem_cons_of_mem _ hx))

lemma processLine_header_none (l : String) (h : sStartsWith (sTrim l) "BSS " = true) :
    processLine ⟨[], [], none⟩ l =
      ⟨[], [], some (WifiNetworkBuilder.new (extractBssid (sTrim l)))⟩ := by
  dsimp only [processLine]
  simp [h]

lemma parseLines_single_block (hline : String) (lines : List String)
    (hh : sStartsWith (sTrim hline) "BSS " = true)
    (hl : ∀ l ∈ lines, sStartsWith (sTrim l) "BSS " = false) :
    parseLines (hline :: lines) = [blockRecord hline lines] := by
  unfold parseLines parseState
  rw [List.foldl_cons, processLine_header_none _ hh, foldl_processLine_noBSS _ _ _ _ hl]
  simp [flushState, pushNetwork, WifiNetworkBuilder.build, blockRecord, sortD, insortD]

lemma stBssids_processLine (st : ScanState) (l : String) :
    stBssids (processLine st l) = stBssids st ++
      (if sStartsWith (sTrim l) "BSS " then [extractBssid (sTrim l)] else []) := by
  dsimp only [processLine]
  cases hh : sStartsWith (sTrim l) "BSS " with
  | false =>
      simp only [hh, Bool.false_eq_true, if_false]
      cases hc : st.current with
      | none => simp [stBssids, hc]
      | some b => simp [stBssids, hc, applyLine_bssid]
  | true =>
      simp only [hh, if_true]
      cases hc : st.current with
      | none => simp [stBssids, hc, WifiNetworkBuilder.new]
      | some b =>
          simp [stBssids, hc, pushNetwork, WifiNetworkBuilder.build, buildRecord,
            WifiNetworkBuilder.new]

lemma stBssids_foldl (lines : List String) (st : ScanState) :
    stBssids (List.foldl processLine st lines) = stBssids st ++ headerBssids lines := by
  induction lines generalizing st with
  | nil => simp [headerBssids]
  | cons l ls ih =>
      rw [List.foldl_cons, ih, stBssids_processLine]
      unfold headerBssids
      rw [List.filterMap_cons]
      cases hh : sStartsWith (sTrim l) "BSS " <;> simp [hh, headerBssids]

lemma flushState_bssids (st : ScanState) :
    (flushState st).networks.map (fun r => r.bssid) = stBssids st := by
  unfold flushState
  cases hc : st.current with
  | none => simp [stBssids, hc]
  | some b => simp [stBssids, hc, pushNetwork, WifiNetworkBuilder.build, buildRecord]

lemma parseState_bssids (lines : List String) :
    (parseState lines).networks.map (fun r => r.bssid) = headerBssids lines := by
  unfold parseState
  rw [flushState_bssids, stBssids_foldl]
  simp [stBssids]

lemma wirelessModeLoop_find (ls : List String) :
    wirelessModeLoop ls =
      match ls.find? modeKeywordLine with
      | some l => wirelessModeOfLine l
      | none => WirelessMode.Unknown := by
  induction ls with
  | nil => rfl
  | cons l ls ih =>
      unfold wirelessModeLoop
      cases ht : containsStr l "type" <;>
        cases hm : containsStr l "monitor" <;>
          cases hman : containsStr l "managed" <;>
            cases hap : containsStr l "AP" <;>
              cases hma : containsStr l "master" <;>
                cases hib : containsStr l "IBSS" <;>
                  cases had : containsStr l "ad-hoc" <;>
        simp only [modeKeywordLine, wirelessModeOfLine, List.find?, ht, hm, hman, hap, hma,
          hib, had, Bool.and_true, Bool.and_false, Bool.true_and, Bool.false_and,
          Bool.or_true, Bool.true_or, Bool.false_or, Bool.or_false, Bool.and_self,
          Bool.or_self, if_true, if_false, Bool.false_eq_true, Bool.true_eq_false] <;>
        first
          | rfl
          | exact ih

lemma hexDigit_lowerHex : ∀ n : Fin 16, isLowerHex (hexDigit n.val) = true := by decide

lemma hexPair_wf (b : Nat) (hb : b < 256) :
    (hexPair b).length = 2 ∧ ∀ c ∈ (hexPair b).toList, isLowerHex c = true := by
  constructor
  · rfl
  · intro c hc
    have h1 : b / 16 < 16 := by omega
    have h2 : b % 16 < 16 := Nat.mod_lt _ (by omega)
    have : c = hexDigit (b / 16) ∨ c = hexDigit (b % 16) := by
      simpa [hexPair] using hc
    rcases this with rfl | rfl
    · exact hexDigit_lowerHex ⟨b / 16, h1⟩
    · exact hexDigit_lowerHex ⟨b % 16, h2⟩

set_option maxRecDepth 4096 in
lemma mac_first_byte_bits :
    ∀ v : Fin 256, ((v.val &&& 0xFC) ||| 2) &&& 1 = 0 ∧
      ((v.val &&& 0xFC) ||| 2) &&& 2 = 2 ∧ ((v.val &&& 0xFC) ||| 2) < 256 := by decide

/-- C9: the signal-quality mapping is total with range `0..=100`: inputs
at or above −50 dBm give 100, at or below −100 give 0, and for
−100 < dBm < −50 the value `2*(dBm+100)` lies strictly between 0 and 100,
so the `as u8` cast (the `% 256` in the model) never wraps and the
arithmetic stays far inside the `i32` range. -/
theorem c9_signal_quality_range (d : Int) :
    signal_to_quality d ≤ 100 ∧
    (d ≥ -50 → signal_to_quality d = 100) ∧
    (d ≤ -100 → signal_to_quality d = 0) ∧
    (-100 < d → d < -50 →
      0 < 2 * (d + 100) ∧ 2 * (d + 100) < 100 ∧
      signal_to_quality d = (2 * (d + 100)).toNat) := by
  refine ⟨?_, fun h => ?_, fun h => ?_, fun h1 h2 => ⟨by omega, by omega, ?_⟩⟩ <;>
    unfold signal_to_quality <;> split_ifs <;> omega

/-- C9 witness: the midpoint −75 dBm takes the linear branch and maps to
exactly 50. -/
theorem c9_signal_quality_witness :
    (-100 : Int) < -75 ∧ (-75 : Int) < -50 ∧ signal_to_quality (-75) = 50 := by
  refine ⟨by decide, by decide, ?_⟩
  have h := (c9_signal_quality_range (-75)).2.2.2 (by decide) (by decide)
  rw [h.2.2]
  decide

/-- C2 counterexample: from the reachable state WPA3 (set by a `WPA3`
line), an `RSN` line flagged `802.1X` steps the builder down to
WPA2Enterprise, which is strictly weaker than WPA3 in the claim's order
`Open < WEP < WPA < WPA2 < WPA2Enterprise < WPA3`. -/
theorem c2_counterexample :
    (List.foldl applyLine (WifiNetworkBuilder.new "aa") ["WPA3"]).security =
      SecurityType.WPA3 ∧
    (List.foldl applyLine (WifiNetworkBuilder.new "aa") ["WPA3", "RSN: 802.1X"]).security =
      SecurityType.WPA2Enterprise ∧
    claimStrength SecurityType.WPA2Enterprise < claimStrength SecurityType.WPA3 := by decide

/-- C2 amended: the security-inference step never decreases the inferred
security with respect to the coarser order
`Open < WEP < WPA < {WPA2, WPA2Enterprise, WPA3}`; within the top tier an
`RSN`/`WPA2` line flagged `802.1X`/`EAP` may replace WPA3 by
WPA2Enterprise, and an unflagged one may replace WPA2Enterprise by WPA2. -/
theorem c2_security_never_downgrades_coarse (sec : SecurityType) (line : String) :
    securityRank sec ≤ securityRank (update_security sec line) := by
  cases sec <;> (unfold update_security; repeat' split) <;>
    first
      | decide
      | (rename_i hfalse; simp at hfalse)

/-- C5 counterexample: a device-info blob consisting of the single line
`monitor` contains the keyword `monitor`, yet the query returns Unknown,
because the loop only inspects lines containing `type`. -/
theorem c5_counterexample :
    containsStr "monitor" "monitor" = true ∧
    get_wireless_mode "monitor" = WirelessMode.Unknown ∧
    WirelessMode.Unknown ≠ WirelessMode.Monitor := by decide

/-- C5 amended: the wireless-mode query scans the blob line by line,
ignoring lines without the substring `type`; the first line containing
`type` together with at least one keyword decides the mode by the
per-line precedence monitor → managed → (AP or master) → (IBSS or
ad-hoc); if no such line exists the result is Unknown. -/
theorem c5_mode_first_type_line (blob : String) :
    get_wireless_mode blob =
      match (rustLines blob).find? modeKeywordLine with
      | some l => wirelessModeOfLine l
      | none => WirelessMode.Unknown :=
  wirelessModeLoop_find (rustLines blob)

/-- C7: the returned sequence is sorted by `signal_strength` descending,
records with equal signal keep their encounter order (the filter at any
fixed signal value equals the filter of the unsorted encounter-order
list), and the −40/−80 example orders the −40 record first. -/
theorem c7_sorted_descending_stable (output : String) :
    List.Pairwise (fun a b => b.signal_strength ≤ a.signal_strength)
      (parse_scan_results output) ∧
    (∀ s : Int,
      (parse_scan_results output).filter (fun r => r.signal_strength == s) =
        (parseState (rustLines output)).networks.filter (fun r => r.signal_strength == s)) ∧
    (parse_scan_results
        "BSS aa (on wlan0)\n\tsignal: -80 dBm\nBSS bb (on wlan0)\n\tsignal: -40 dBm").map
      (fun r => r.signal_strength) = [-40, -80] :=
  ⟨sortD_pairwise _, fun s => sortD_filter _ s, by decide⟩

/-- C1 counterexample: the block `["WPA3", "RSN: 802.1X"]` contains a line
with the substring `WPA3`, yet it finalizes as WPA2Enterprise — the
Enterprise branch of `update_security` overwrites WPA3. -/
theorem c1_counterexample :
    containsStr (sTrim "WPA3") "WPA3" = true ∧
    (buildRecord (List.foldl applyLine (WifiNetworkBuilder.new "aa")
        ["WPA3", "RSN: 802.1X"])).security = SecurityType.WPA2Enterprise ∧
    SecurityType.WPA2Enterprise ≠ SecurityType.WPA3 := by decide

/-- C1 amended: a BSS block that contains a security-dispatched line (one
whose trimmed form starts with none of `SSID:`, `freq:`, `signal:`) with
the substring `WPA3` finalizes as WPA3 regardless of the other security
lines present, provided no line of the block is an Enterprise-override
line (an `RSN`/`WPA2` line without `WPA3` carrying `802.1X` or `EAP`);
such an override line would instead force WPA2Enterprise. -/
theorem c1_wpa3_sticky_no_enterprise (bssid : String) (lines : List String)
    (hw : ∃ l ∈ lines, sStartsWith (sTrim l) "SSID:" = false ∧
      sStartsWith (sTrim l) "freq:" = false ∧ sStartsWith (sTrim l) "signal:" = false ∧
      containsStr (sTrim l) "WPA3" = true)
    (hent : ∀ l ∈ lines, noEnterpriseOverride l) :
    (buildRecord (List.foldl applyLine (WifiNetworkBuilder.new bssid) lines)).security =
      SecurityType.WPA3 := by
  have h := foldl_wpa3_of_mem (WifiNetworkBuilder.new bssid) lines hw hent
  simpa [buildRecord] using h

/-- C1 witness: an `RSN` PSK line followed by a `WPA3` line finalizes as
WPA3. -/
theorem c1_wpa3_witness :
    (buildRecord (List.foldl applyLine (WifiNetworkBuilder.new "aa")
        ["\tRSN: PSK CCMP", "\tWPA3 SAE"])).security = SecurityType.WPA3 :=
  c1_wpa3_sticky_no_enterprise "aa" ["\tRSN: PSK CCMP", "\tWPA3 SAE"]
    (by decide) (by decide)

/-- C3 counterexample: two `BSS ` blocks with the same BSSID produce two
records with the same BSSID in the returned sequence — the returned
vector is not deduplicated (only the session cache is). -/
theorem c3_counterexample :
    (parse_scan_results "BSS aa (on wlan0)\nBSS aa (on wlan0)").map (fun r => r.bssid) =
      ["aa", "aa"] ∧
    ¬ ((parse_scan_results "BSS aa (on wlan0)\nBSS aa (on wlan0)").map
        (fun r => r.bssid)).Nodup := by decide

/-- C3 amended: the returned sequence carries one record per `BSS ` block,
so its BSSIDs are pairwise distinct exactly when the input's block-header
BSSIDs are; with duplicate headers the duplicates survive in the returned
sequence (deduplication happens only in the session cache keyed by
BSSID). -/
theorem c3_bssid_unique_of_distinct_headers (output : String)
    (h : (blockBssids output).Nodup) :
    ((parse_scan_results output).map (fun r => r.bssid)).Nodup := by
  have hperm := (sortD_perm (parseState (rustLines output)).networks).map (fun r => r.bssid)
  rw [parseState_bssids] at hperm
  have heq : headerBssids (rustLines output) = blockBssids output := by
    unfold headerBssids blockBssids
    rw [List.filterMap_map]
    rfl
  rw [heq] at hperm
  exact hperm.nodup_iff.mpr h

/-- C3 witness: with two distinct headers the returned BSSIDs are
pairwise distinct. -/
theorem c3_bssid_unique_witness :
    ((parse_scan_results "BSS aa (on wlan0)\nBSS bb (on wlan0)").map
      (fun r => r.bssid)).Nodup :=
  c3_bssid_unique_of_distinct_headers "BSS aa (on wlan0)\nBSS bb (on wlan0)" (by decide)

/-- C10: for every outcome of the six random byte draws, the generated
MAC string is six colon-separated two-character lowercase-hex octets, and
the first octet has the multicast bit `0x01` clear and the
locally-administered bit `0x02` set. -/
theorem c10_generate_random_mac (r0 r1 r2 r3 r4 r5 : Nat) :
    ∃ b0 b1 b2 b3 b4 b5 : Nat,
      generate_random_mac r0 r1 r2 r3 r4 r5 =
        hexPair b0 ++ ":" ++ hexPair b1 ++ ":" ++ hexPair b2 ++ ":" ++
          hexPair b3 ++ ":" ++ hexPair b4 ++ ":" ++ hexPair b5 ∧
      (∀ b ∈ [b0, b1, b2, b3, b4, b5], b < 256 ∧ (hexPair b).length = 2 ∧
        ∀ c ∈ (hexPair b).toList, isLowerHex c = true) ∧
      b0 &&& 1 = 0 ∧ b0 &&& 2 = 2 := by
  refine ⟨((r0 % 256) &&& 0xFC) ||| 2, r1 % 256, r2 % 256, r3 % 256, r4 % 256, r5 % 256,
    rfl, ?_, ?_, ?_⟩
  · have hbits := mac_first_byte_bits ⟨r0 % 256, Nat.mod_lt _ (by omega)⟩
    intro b hb
    simp only [List.mem_cons, List.not_mem_nil, or_false] at hb
    have hlt : b < 256 := by
      rcases hb with rfl | rfl | rfl | rfl | rfl | rfl
      · exact hbits.2.2
      all_goals exact Nat.mod_lt _ (by omega)
    exact ⟨hlt, (hexPair_wf b hlt).1, (hexPair_wf b hlt).2⟩
  · exact (mac_first_byte_bits ⟨r0 % 256, Nat.mod_lt _ (by omega)⟩).1
  · exact (mac_first_byte_bits ⟨r0 % 256, Nat.mod_lt _ (by omega)⟩).2.1

/-- C6 counterexample: a `signal:` line with an empty remainder does not
leave the field unset — the empty token is replaced by the literal `"0"`,
which parses, so the block finalizes with signal 0 instead of −100. -/
theorem c6_counterexample :
    firstToken (sTrim "") = none ∧
    (buildRecord (List.foldl applyLine (WifiNetworkBuilder.new "aa")
        ["signal:"])).signal_strength = 0 ∧ (0 : Int) ≠ -100 := by decide

/-- C6 amended: a `signal:` line whose remainder has a first whitespace
token that fails integer parsing leaves the field unset (`none`); a
`signal:` line whose remainder is empty or all whitespace substitutes the
literal token `0` and sets the signal to 0; a block whose lines are all of
the first kind finalizes with signal −100. -/
theorem c6_malformed_signal :
    (∀ (b : WifiNetworkBuilder) (l rest tok : String),
      sStartsWith (sTrim l) "signal:" = true →
      stripPre (sTrim l) "signal:" = some rest →
      firstToken (sTrim rest) = some tok →
      parseI32 tok = none →
      (applyLine b l).signal_strength = none) ∧
    (∀ (b : WifiNetworkBuilder) (l rest : String),
      sStartsWith (sTrim l) "signal:" = true →
      stripPre (sTrim l) "signal:" = some rest →
      firstToken (sTrim rest) = none →
      (applyLine b l).signal_strength = some 0) ∧
    (∀ (bssid : String) (lines : List String),
      (∀ l ∈ lines, ∃ rest tok,
        sStartsWith (sTrim l) "signal:" = true ∧
        stripPre (sTrim l) "signal:" = some rest ∧
        firstToken (sTrim rest) = some tok ∧
        parseI32 tok = none) →
      (buildRecord (List.foldl applyLine (WifiNetworkBuilder.new bssid)
        lines)).signal_strength = -100) := by
  have ha : ∀ (b : WifiNetworkBuilder) (l rest tok : String),
      sStartsWith (sTrim l) "signal:" = true →
      stripPre (sTrim l) "signal:" = some rest →
      firstToken (sTrim rest) = some tok →
      parseI32 tok = none →
      (applyLine b l).signal_strength = none := by
    intro b l rest tok h1 h2 h3 h4
    dsimp only [applyLine]
    simp only [sW_SSID_of_signal h1, sW_freq_of_signal h1, h1, Bool.false_eq_true,
      if_false, if_true, h2]
    simp [h3, h4]
  refine ⟨ha, ?_, ?_⟩
  · intro b l rest h1 h2 h3
    dsimp only [applyLine]
    simp only [sW_SSID_of_signal h1, sW_freq_of_signal h1, h1, Bool.false_eq_true,
      if_false, if_true, h2]
    simp only [h3, Option.getD_none]
    decide
  · intro bssid lines hall
    suffices hs :
        (List.foldl applyLine (WifiNetworkBuilder.new bssid) lines).signal_strength = none by
      simp [buildRecord, hs]
    have key : ∀ (ls : List String) (b : WifiNetworkBuilder), b.signal_strength = none →
        (∀ l ∈ ls, ∃ rest tok,
          sStartsWith (sTrim l) "signal:" = true ∧
          stripPre (sTrim l) "signal:" = some rest ∧
          firstToken (sTrim rest) = some tok ∧
          parseI32 tok = none) →
        (List.foldl applyLine b ls).signal_strength = none := by
      intro ls
      induction ls with
      | nil => intro b hb _; exact hb
      | cons l ls ih =>
          intro b hb hall
          rw [List.foldl_cons]
          obtain ⟨rest, tok, h1, h2, h3, h4⟩ := hall l (List.mem_cons_self _ _)
          exact ih _ (ha b l rest tok h1 h2 h3 h4)
            (fun x hx => hall x (List.mem_cons_of_mem _ hx))
    exact key lines _ rfl hall

/-- C6 witness: a non-numeric token leaves the signal unset and the block
finalizes at −100; an all-whitespace remainder yields 0. -/
theorem c6_malformed_signal_witness :
    (applyLine (WifiNetworkBuilder.new "aa") "\tsignal: strong dBm").signal_strength = none ∧
    (applyLine (WifiNetworkBuilder.new "aa") "\tsignal:  ").signal_strength = some 0 ∧
    (buildRecord (List.foldl applyLine (WifiNetworkBuilder.new "aa")
        ["\tsignal: strong dBm"])).signal_strength = -100 := by
  refine ⟨?_, ?_, ?_⟩
  · exact c6_malformed_signal.1 _ "\tsignal: strong dBm" " strong dBm" "strong"
      (by decide) (by decide) (by decide) (by decide)
  · exact c6_malformed_signal.2.1 _ "\tsignal:  " "" (by decide) (by decide) (by decide)
  · refine c6_malformed_signal.2.2 "aa" ["\tsignal: strong dBm"] ?_
    intro l hl
    simp only [List.mem_singleton] at hl
    subst hl
    exact ⟨" strong dBm", "strong", by decide, by decide, by decide, by decide⟩

/-- C4 counterexample: an explicit `DS Parameter set: ... channel 7` line
followed by `freq: 5000` (a frequency outside the lookup table) finalizes
with channel 0, not 7 — the freq line assigns the lookup result, `None`,
over the explicit channel. -/
theorem c4_counterexample :
    freq_to_channel 5000 = none ∧
    (buildRecord (List.foldl applyLine (WifiNetworkBuilder.new "aa")
        ["\tDS Parameter set: channel 7", "\tfreq: 5000"])).channel = 0 ∧
    (0 : Nat) ≠ 7 := by decide

/-- C4 amended: a `freq:` line whose frequency is outside the lookup
table overwrites the channel with the empty lookup result, so an explicit
channel line followed by such a freq line finalizes with channel 0; the
explicit channel `n` survives only when the `DS Parameter set` line comes
after the freq line; and with no explicit channel line the out-of-table
frequency leaves the channel unset, finalizing as 0. -/
theorem c4_freq_overwrites_explicit_channel (b : WifiNetworkBuilder)
    (dsL fL chs fs : String) (n f : Nat)
    (hd1 : containsStr (sTrim dsL) "WPA" = false)
    (hd2 : containsStr (sTrim dsL) "RSN" = false)
    (hd3 : containsStr (sTrim dsL) "WEP" = false)
    (hd4 : sStartsWith (sTrim dsL) "DS Parameter set:" = true)
    (hd5 : (sSplitOn (sTrim dsL) "channel").get? 1 = some chs)
    (hd6 : parseU32 (sTrim chs) = some n)
    (hf1 : sStartsWith (sTrim fL) "freq:" = true)
    (hf2 : stripPre (sTrim fL) "freq:" = some fs)
    (hf3 : parseU32 (sTrim fs) = some f)
    (hf4 : freq_to_channel f = none) :
    (buildRecord (List.foldl applyLine b [dsL, fL])).channel = 0 ∧
    (buildRecord (List.foldl applyLine b [fL, dsL])).channel = n ∧
    (applyLine b fL).channel = none := by
  have hds : ∀ b' : WifiNetworkBuilder, (applyLine b' dsL).channel = some n := by
    intro b'
    dsimp only [applyLine]
    simp only [sW_SSID_of_ds hd4, sW_freq_of_ds hd4, sW_signal_of_ds hd4, hd1, hd2, hd3,
      hd4, Bool.or_false, Bool.false_or, Bool.or_self, Bool.false_eq_true, if_false,
      if_true, hd5]
    simp [hd6]
  have hfr : ∀ b' : WifiNetworkBuilder, (applyLine b' fL).channel = none := by
    intro b'
    dsimp only [applyLine]
    simp only [sW_SSID_of_freq hf1, hf1, Bool.false_eq_true, if_false, if_true, hf2]
    simp [hf3, hf4]
  refine ⟨?_, ?_, hfr b⟩
  · show (buildRecord (applyLine (applyLine b dsL) fL)).channel = 0
    simp [buildRecord, hfr]
  · show (buildRecord (applyLine (applyLine b fL) dsL)).channel = n
    simp [buildRecord, hds]

/-- C4 witness: channel 11 then out-of-table frequency 5000 gives 0; in
the other order the explicit channel 11 stands. -/
theorem c4_freq_overwrites_witness :
    (buildRecord (List.foldl applyLine (WifiNetworkBuilder.new "aa")
        ["\tDS Parameter set: channel 11", "\tfreq: 5000"])).channel = 0 ∧
    (buildRecord (List.foldl applyLine (WifiNetworkBuilder.new "aa")
        ["\tfreq: 5000", "\tDS Parameter set: channel 11"])).channel = 11 ∧
    (applyLine (WifiNetworkBuilder.new "aa") "\tfreq: 5000").channel = none :=
  c4_freq_overwrites_explicit_channel (WifiNetworkBuilder.new "aa")
    "\tDS Parameter set: channel 11" "\tfreq: 5000" " 11" " 5000" 11 5000
    (by decide) (by decide) (by decide) (by decide) (by decide) (by decide)
    (by decide) (by decide) (by decide) (by decide)

/-- C8: finalization fills missing fields with the documented defaults —
no `SSID:` line gives ssid `<hidden>`, no `freq:` line gives frequency 0,
no `freq:`/`DS Parameter set:` line gives channel 0, no `signal:` line
gives signal −100, no `WPA`/`RSN`/`WEP` line gives security Open — and a
trailing block truncated by end of input is still finalized and
returned. -/
theorem c8_finalization_defaults (header : String) (lines : List String)
    (hh : sStartsWith (sTrim header) "BSS " = true)
    (hl : ∀ l ∈ lines, sStartsWith (sTrim l) "BSS " = false) :
    parseLines (header :: lines) = [blockRecord header lines] ∧
    ((∀ l ∈ lines, sStartsWith (sTrim l) "SSID:" = false) →
      (blockRecord header lines).ssid = "<hidden>") ∧
    ((∀ l ∈ lines, sStartsWith (sTrim l) "freq:" = false) →
      (blockRecord header lines).frequency = 0) ∧
    ((∀ l ∈ lines, sStartsWith (sTrim l) "freq:" = false ∧
        sStartsWith (sTrim l) "DS Parameter set:" = false) →
      (blockRecord header lines).channel = 0) ∧
    ((∀ l ∈ lines, sStartsWith (sTrim l) "signal:" = false) →
      (blockRecord header lines).signal_strength = -100) ∧
    ((∀ l ∈ lines, containsStr (sTrim l) "WPA" = false ∧
        containsStr (sTrim l) "RSN" = false ∧ containsStr (sTrim l) "WEP" = false) →
      (blockRecord header lines).security = SecurityType.Open) := by
  refine ⟨parseLines_single_block header lines hh hl, fun h => ?_, fun h => ?_,
    fun h => ?_, fun h => ?_, fun h => ?_⟩
  · unfold blockRecord buildRecord
    simp [foldl_applyLine_ssid _ _ h, WifiNetworkBuilder.new]
  · unfold blockRecord buildRecord
    simp [foldl_applyLine_frequency _ _ h, WifiNetworkBuilder.new]
  · unfold blockRecord buildRecord
    simp [foldl_applyLine_channel _ _ h, WifiNetworkBuilder.new]
  · unfold blockRecord buildRecord
    simp [foldl_applyLine_signal _ _ h, WifiNetworkBuilder.new]
  · unfold blockRecord buildRecord
    simp [foldl_applyLine_security _ _ h, WifiNetworkBuilder.new]

/-- C8 witness: a lone truncated block with only an unclassified line
yields exactly the all-defaults record. -/
theorem c8_finalization_defaults_witness :
    parseLines ["BSS aa:bb:cc (on wlan0)", "\tlast seen: 123 ms ago"] =
      [{ ssid := "<hidden>", bssid := "aa:bb:cc", channel := 0, frequency := 0,
         signal_strength := -100, security := SecurityType.Open,
         mode := "Infrastructure" }] ∧
    (blockRecord "BSS aa:bb:cc (on wlan0)" ["\tlast seen: 123 ms ago"]).ssid = "<hidden>" := by
  have h := c8_finalization_defaults "BSS aa:bb:cc (on wlan0)" ["\tlast seen: 123 ms ago"]
    (by decide) (by decide)
  exact ⟨h.1.trans (by decide), h.2.1 (by decide)⟩
